import Mathlib

/-!
Verification of the Note Editing & Synchronization Engine of the Polymathic
note-taking application.

The development shallowly embeds the two pieces of the repository that carry
the synchronization logic:

* `frontend/src/components/notes/NoteEditor.tsx` (the variant with the
  debounced auto-save, the `isLoadingNote` guard and the `hasUnsavedChanges`
  flag): the `autoSave` callback, the `useEditor` `onUpdate` handler, the
  note-switch `useEffect`, the unmount cleanup and `manualSave`.
* `frontend/src/hooks/useNotes.ts`: the optimistic-update logic of
  `updateNoteMutation` (`onMutate` / `onError`).

JavaScript timers are embedded explicitly: the set of scheduled `setTimeout`
callbacks is part of the state, `clearTimeout` removes a callback by its
handle, and a deterministic scheduler fires every callback whose deadline has
been reached before the next external event is processed.  `JSON.parse` and
`JSON.stringify` are modelled by an executable parser / printer for a JSON
fragment large enough for the document payloads involved (`JSON.parse` throws
on malformed input, which the model renders as `Option.none`).
-/

namespace Polymathic

/-! ## JSON values, `JSON.parse` and `JSON.stringify` -/

/-- JSON value trees, the model of the values produced by `JSON.parse` and
consumed by `JSON.stringify` (numbers are restricted to integers, which covers
every payload the editor exchanges). -/
inductive Json where
  | null : Json
  | bool (b : Bool) : Json
  | num (n : Int) : Json
  | str (s : String) : Json
  | arr (elems : List Json) : Json
  | obj (fields : List (String × Json)) : Json
deriving Repr

/-- Whitespace accepted between JSON tokens. -/
def isWs (c : Char) : Bool :=
  c = ' ' || c = '\n' || c = '\t' || c = '\r'

/-- Drop leading whitespace. -/
def skipWs : List Char → List Char
  | [] => []
  | c :: cs => if isWs c then skipWs cs else c :: cs

/-- Parse the body of a string literal (the opening quote already consumed),
returning the decoded string and the input after the closing quote. -/
def parseStringBody (fuel : Nat) (acc : List Char) : List Char → Option (String × List Char)
  | [] => none
  | c :: cs =>
    match fuel with
    | 0 => none
    | fuel + 1 =>
      if c = '"' then some (String.mk acc.reverse, cs)
      else if c = '\\' then
        match cs with
        | [] => none
        | e :: cs' =>
          let d := if e = 'n' then '\n' else if e = 't' then '\t' else e
          parseStringBody fuel (d :: acc) cs'
      else parseStringBody fuel (c :: acc) cs

/-- Parse a run of decimal digits. -/
def parseDigits (fuel : Nat) (acc : Nat) (seen : Bool) : List Char → Option (Nat × List Char)
  | [] => if seen then some (acc, []) else none
  | c :: cs =>
    match fuel with
    | 0 => none
    | fuel + 1 =>
      if c.isDigit then parseDigits fuel (acc * 10 + (c.toNat - '0'.toNat)) true cs
      else if seen then some (acc, c :: cs) else none

mutual

/-- Parse one JSON value; `fuel` bounds the nesting depth. -/
def parseVal (fuel : Nat) (cs : List Char) : Option (Json × List Char) :=
  match fuel with
  | 0 => none
  | fuel + 1 =>
    match skipWs cs with
    | [] => none
    | c :: rest =>
      if c = 'n' then
        match rest with
        | 'u' :: 'l' :: 'l' :: rest' => some (Json.null, rest')
        | _ => none
      else if c = 't' then
        match rest with
        | 'r' :: 'u' :: 'e' :: rest' => some (Json.bool true, rest')
        | _ => none
      else if c = 'f' then
        match rest with
        | 'a' :: 'l' :: 's' :: 'e' :: rest' => some (Json.bool false, rest')
        | _ => none
      else if c = '"' then
        match parseStringBody (rest.length + 1) [] rest with
        | some (s, rest') => some (Json.str s, rest')
        | none => none
      else if c = '[' then
        match skipWs rest with
        | ']' :: rest' => some (Json.arr [], rest')
        | _ =>
          match parseElems fuel rest with
          | some (xs, rest') => some (Json.arr xs, rest')
          | none => none
      else if c = '\x7b' then
        match skipWs rest with
        | '\x7d' :: rest' => some (Json.obj [], rest')
        | _ =>
          match parseFields fuel rest with
          | some (fs, rest') => some (Json.obj fs, rest')
          | none => none
      else if c = '-' then
        match parseDigits (rest.length + 1) 0 false rest with
        | some (n, rest') => some (Json.num (-(n : Int)), rest')
        | none => none
      else if c.isDigit then
        match parseDigits (cs.length + 1) 0 false (c :: rest) with
        | some (n, rest') => some (Json.num (n : Int), rest')
        | none => none
      else none

/-- Parse the comma-separated elements of a non-empty array, including the
closing bracket. -/
def parseElems (fuel : Nat) (cs : List Char) : Option (List Json × List Char) :=
  match fuel with
  | 0 => none
  | fuel + 1 =>
    match parseVal fuel cs with
    | none => none
    | some (v, rest) =>
      match skipWs rest with
      | ',' :: rest' =>
        match parseElems fuel rest' with
        | some (vs, rest'') => some (v :: vs, rest'')
        | none => none
      | ']' :: rest' => some ([v], rest')
      | _ => none

/-- Parse the comma-separated fields of a non-empty object, including the
closing brace. -/
def parseFields (fuel : Nat) (cs : List Char) : Option (List (String × Json) × List Char) :=
  match fuel with
  | 0 => none
  | fuel + 1 =>
    match skipWs cs with
    | '"' :: rest =>
      match parseStringBody (rest.length + 1) [] rest with
      | none => none
      | some (k, rest') =>
        match skipWs rest' with
        | ':' :: rest'' =>
          match parseVal fuel rest'' with
          | none => none
          | some (v, rest''') =>
            match skipWs rest''' with
            | ',' :: more =>
              match parseFields fuel more with
              | some (fs, after) => some ((k, v) :: fs, after)
              | none => none
            | '\x7d' :: after => some ([(k, v)], after)
            | _ => none
        | _ => none
    | _ => none

end

/-- Model of `JSON.parse`: `some` on success, `none` where `JSON.parse`
throws a `SyntaxError`. -/
def parseJson (s : String) : Option Json :=
  match parseVal (s.length + 1) s.data with
  | some (v, rest) => if skipWs rest = [] then some v else none
  | none => none

/-- Escape a string for JSON output. -/
def escapeString (s : String) : String :=
  s.data.foldl (fun acc c =>
    if c = '"' then acc ++ "\\\""
    else if c = '\\' then acc ++ "\\\\"
    else if c = '\n' then acc ++ "\\n"
    else if c = '\t' then acc ++ "\\t"
    else acc.push c) ""

mutual

/-- Model of `JSON.stringify` (no extra whitespace, fields in order, the
encoding used both for persisted content and for the change-detection
comparison in the note-switch effect). -/
def stringify : Json → String
  | Json.null => "null"
  | Json.bool true => "true"
  | Json.bool false => "false"
  | Json.num n => toString n
  | Json.str s => "\"" ++ escapeString s ++ "\""
  | Json.arr xs => "[" ++ stringifyElems xs ++ "]"
  | Json.obj fs => "\x7b" ++ stringifyFields fs ++ "\x7d"

/-- Comma-separated serialization of array elements. -/
def stringifyElems : List Json → String
  | [] => ""
  | [x] => stringify x
  | x :: xs => stringify x ++ "," ++ stringifyElems xs

/-- Comma-separated serialization of object fields. -/
def stringifyFields : List (String × Json) → String
  | [] => ""
  | [(k, v)] => "\"" ++ escapeString k ++ "\":" ++ stringify v
  | (k, v) :: fs => "\"" ++ escapeString k ++ "\":" ++ stringify v ++ "," ++ stringifyFields fs

end

/-! ## Data model (`frontend/src/types/note.types.ts`) -/

/-- Complete note data as returned by the API (`interface Note`). -/
structure Note where
  id : Nat
  subject_id : Nat
  title : String
  content_json : String
deriving Repr, DecidableEq

/-- Partial update payload (`interface NoteUpdate`); absent fields are
omitted keys. -/
structure NoteUpdate where
  title : Option String := none
  content_json : Option String := none
deriving Repr, DecidableEq

/-- Note list with metadata (`interface NoteList`). -/
structure NoteList where
  notes : List Note
  total : Nat
  subject_id : Option Nat := none
deriving Repr, DecidableEq

/-! ## Optimistic cache (`frontend/src/hooks/useNotes.ts`, `updateNoteMutation`) -/

/-- JavaScript object spread `\x7b...note, ...data\x7d`: fields present in the
partial update overwrite the note's fields, absent fields are kept. -/
def spreadUpdate (n : Note) (data : NoteUpdate) : Note :=
  { n with
    title := data.title.getD n.title
    content_json := data.content_json.getD n.content_json }

/-- The `onMutate` cache rewrite of `updateNoteMutation`: `setQueryData` with
an updater that returns `old` unchanged when the cache is empty and otherwise
maps over `old.notes`, rewriting exactly the entries whose `id` matches.  The
cache value is `none` when React Query holds no data for the key yet. -/
def setQueryDataUpdate (id : Nat) (data : NoteUpdate) :
    Option NoteList → Option NoteList
  | none => none
  | some old =>
      some { old with
        notes := old.notes.map (fun note =>
          if note.id = id then spreadUpdate note data else note) }

/-- The snapshot taken by `onMutate` before the optimistic rewrite
(`const previousNotes = queryClient.getQueryData(queryKey)`). -/
def snapshotCache (cache : Option NoteList) : Option NoteList := cache

/-- The `onError` rollback of `updateNoteMutation`: when the snapshot in the
mutation context is truthy, `setQueryData` restores it wholesale; otherwise
the cache is left as it is. -/
def rollbackOnError (current snapshot : Option NoteList) : Option NoteList :=
  match snapshot with
  | some prev => some prev
  | none => current

/-- The full optimistic round trip on repository failure: snapshot the cache,
apply the optimistic rewrite, then run the `onError` rollback. -/
def mutateThenFail (cache : Option NoteList) (id : Nat) (data : NoteUpdate) :
    Option NoteList :=
  rollbackOnError (setQueryDataUpdate id data cache) (snapshotCache cache)

/-! ## NoteEditor session state (`NoteEditor.tsx`)

The component state is embedded explicitly, including the JavaScript timer
queue: `pendingSaveTimers` holds every `setTimeout` callback scheduled by
`autoSave` that has been neither fired nor cleared (each carries its handle,
its absolute deadline and the `note.id` / content captured by its closure),
and `pendingGuardClears` holds the deadlines of the 100 ms guard-reset
timeouts scheduled by the note-switch effect (these are never cleared).
`saveTimeoutRef` is the component's `saveTimeoutRef.current`. -/

/-- A `setTimeout` callback scheduled by `autoSave`: handle, absolute fire
time, and the `note.id` and serialized content captured by its closure. -/
structure SaveTimer where
  id : Nat
  deadline : Nat
  noteId : Nat
  content : String
deriving Repr, DecidableEq

/-- One persistence call `onUpdate(note.id, \x7bcontent_json: content\x7d)`
issued by the component (by a fired auto-save timer or by `manualSave`). -/
structure Call where
  noteId : Nat
  content : String
deriving Repr, DecidableEq

/-- The repository collaborator: whether `onUpdate(noteId, content)` resolves
(`true`) or rejects (`false`). -/
def RepoOk : Type := Nat → String → Bool

/-- The TipTap editor's empty document, the value the editor holds after
`setContent("")`.  Its concrete encoding belongs to the out-of-scope document
engine; the development only relies on it being a fixed document value. -/
def emptyDoc : Json :=
  Json.obj [("type", Json.str ("doc")),
            ("content", Json.arr [Json.obj [("type", Json.str ("paragraph"))]])]

/-- The `NoteEditor` component state: the `note` prop (`noteId`,
`contentJson`), the React state (`isSaving`, `lastSaved`,
`hasUnsavedChanges`), the refs (`saveTimeoutRef`, `isLoadingNote`), the
editor's in-memory document, the live timer queue and the next fresh
`setTimeout` handle. -/
structure Session where
  noteId : Nat
  contentJson : Option String
  isSaving : Bool
  lastSaved : Option Nat
  hasUnsavedChanges : Bool
  saveTimeoutRef : Option Nat
  isLoadingNote : Bool
  editorDoc : Json
  pendingSaveTimers : List SaveTimer
  pendingGuardClears : List Nat
  nextTimerId : Nat
deriving Repr

/-- `clearTimeout(saveTimeoutRef.current)`: remove the scheduled callback
with the ref's handle (a no-op when the ref is null or the callback already
fired). -/
def clearSaveTimeout (s : Session) : Session :=
  match s.saveTimeoutRef with
  | none => s
  | some h =>
      { s with pendingSaveTimers := s.pendingSaveTimers.filter (fun tm => tm.id ≠ h) }

/-- The `autoSave` callback (`NoteEditor.tsx` lines 44-69): mark unsaved
changes, clear any existing timeout, then schedule a new save callback
2000 ms out, capturing the current `note.id` and the content argument, and
store its handle in `saveTimeoutRef`. -/
def autoSave (now : Nat) (content : String) (s : Session) : Session :=
  let s := { s with hasUnsavedChanges := true }
  let s := clearSaveTimeout s
  { s with
    pendingSaveTimers :=
      s.pendingSaveTimers ++ [⟨s.nextTimerId, now + 2000, s.noteId, content⟩]
    saveTimeoutRef := some s.nextTimerId
    nextTimerId := s.nextTimerId + 1 }

/-- The editor's `onUpdate` handler (`NoteEditor.tsx` lines 101-113), run
after the editor content has changed to `d`: if `isLoadingNoteRef.current`
is set the handler returns at once; otherwise it serializes the document and
calls `autoSave`. -/
def onEditorUpdate (now : Nat) (d : Json) (s : Session) : Session :=
  let s := { s with editorDoc := d }
  if s.isLoadingNote then s
  else autoSave now (stringify d) s

/-- The note-switch effect (`NoteEditor.tsx` lines 128-158), run when the
`note` prop changes (and on mount): set the guard, reset `hasUnsavedChanges`
and `lastSaved`, load the new content when it is truthy and differs from the
current editor serialization (falling back to the empty document when
`JSON.parse` throws), and schedule the guard clear 100 ms out.  The
programmatic `setContent` does fire `onUpdate`, but the guard is already set,
so the model records only the document change. -/
def noteSwitchEffect (now : Nat) (id : Nat) (cj : Option String) (s : Session) : Session :=
  let s := { s with noteId := id, contentJson := cj }
  let s := { s with isLoadingNote := true, hasUnsavedChanges := false, lastSaved := none }
  let s :=
    match cj with
    | none => s
    | some str =>
      if str = "" then s
      else if stringify s.editorDoc = str then s
      else
        match parseJson str with
        | some j => { s with editorDoc := j }
        | none => { s with editorDoc := emptyDoc }
  { s with pendingGuardClears := s.pendingGuardClears ++ [now + 100] }

/-- The unmount cleanup (`NoteEditor.tsx` lines 163-169): clear the save
timeout held in the ref. -/
def unmountCleanup (s : Session) : Session :=
  clearSaveTimeout s

/-- The `manualSave` callback (`NoteEditor.tsx` lines 174-189): a no-op when
`hasUnsavedChanges` is false; otherwise it serializes the current document,
awaits `onUpdate` (recording the persistence call), on success sets
`lastSaved` and clears `hasUnsavedChanges`, and finally resets `isSaving`.
It does not touch `saveTimeoutRef` or the scheduled callbacks. -/
def manualSave (ok : RepoOk) (now : Nat) (sc : Session × List Call) : Session × List Call :=
  let s := sc.1
  if s.hasUnsavedChanges then
    let content := stringify s.editorDoc
    let s :=
      if ok s.noteId content then
        { s with lastSaved := some now, hasUnsavedChanges := false }
      else s
    ({ s with isSaving := false }, sc.2 ++ [⟨s.noteId, content⟩])
  else sc

/-- The body of the `setTimeout` callback scheduled by `autoSave`
(`NoteEditor.tsx` lines 55-66): set `isSaving`, await
`onUpdate(note.id, \x7bcontent_json: content\x7d)` with the captured values,
on success set `lastSaved` and clear `hasUnsavedChanges`, on failure only log,
and finally reset `isSaving`. -/
def fireTimerBody (ok : RepoOk) (tm : SaveTimer) (sc : Session × List Call) :
    Session × List Call :=
  let s := sc.1
  let s :=
    if ok tm.noteId tm.content then
      { s with lastSaved := some tm.deadline, hasUnsavedChanges := false }
    else s
  ({ s with isSaving := false }, sc.2 ++ [⟨tm.noteId, tm.content⟩])

/-- Fire every guard-clear timeout whose deadline has been reached: each one
sets `isLoadingNoteRef.current = false`. -/
def fireGuards (now : Nat) (s : Session) : Session :=
  { s with
    pendingGuardClears := s.pendingGuardClears.filter (fun d => now < d)
    isLoadingNote :=
      if s.pendingGuardClears.any (fun d => d ≤ now) then false else s.isLoadingNote }

/-- Fire every scheduled save callback whose deadline has been reached, in
queue order (the queue is kept in scheduling order, so this is deadline
order).  A fired callback leaves the timer queue before its body runs. -/
def fireSaves (ok : RepoOk) (now : Nat) (sc : Session × List Call) :
    Session × List Call :=
  let due := sc.1.pendingSaveTimers.filter (fun tm => tm.deadline ≤ now)
  let s := { sc.1 with pendingSaveTimers := sc.1.pendingSaveTimers.filter (fun tm => now < tm.deadline) }
  due.foldl (fun acc tm => fireTimerBody ok tm acc) (s, sc.2)

/-- Fire every timer due at `now`.  A due guard clear and a due save callback
commute (the save body never reads the guard and the guard clear touches
nothing the save body reads), so the guard clears are fired first. -/
def fireDue (ok : RepoOk) (now : Nat) (sc : Session × List Call) :
    Session × List Call :=
  fireSaves ok now (fireGuards now sc.1, sc.2)

/-- External stimuli driving the component, each carrying its time: a user
edit changing the document, a change of the `note` prop, a manual save, and
an unmount. -/
inductive Ev where
  | edit (t : Nat) (d : Json) : Ev
  | switch (t : Nat) (id : Nat) (cj : Option String) : Ev
  | manual (t : Nat) : Ev
  | unmount (t : Nat) : Ev
deriving Repr

/-- The time at which an event occurs. -/
def Ev.time : Ev → Nat
  | .edit t _ => t
  | .switch t _ _ => t
  | .manual t => t
  | .unmount t => t

/-- Dispatch one event to its handler. -/
def applyEv (ok : RepoOk) (e : Ev) (sc : Session × List Call) : Session × List Call :=
  match e with
  | .edit t d => (onEditorUpdate t d sc.1, sc.2)
  | .switch t id cj => (noteSwitchEffect t id cj sc.1, sc.2)
  | .manual t => manualSave ok t sc
  | .unmount _ => (unmountCleanup sc.1, sc.2)

/-- Process one event: first fire every timer due before (or at) its time,
then run the handler. -/
def procEvent (ok : RepoOk) (sc : Session × List Call) (e : Ev) : Session × List Call :=
  applyEv ok e (fireDue ok e.time sc)

/-- Run a sequence of events from an initial session, then fire every timer
due by `horizon`, returning the final session and the persistence calls
issued, in order. -/
def runEvents (ok : RepoOk) (s0 : Session) (evs : List Ev) (horizon : Nat) :
    Session × List Call :=
  fireDue ok horizon (evs.foldl (procEvent ok) (s0, []))

/-- The editor's initial content (`NoteEditor.tsx` line 99):
`note.content_json ? JSON.parse(note.content_json) : ""`.  A truthy
`content_json` is parsed with no surrounding try/catch, so a malformed value
makes `JSON.parse` throw out of the component (`Except.error`); a null or
empty `content_json` yields the empty editor. -/
def initialEditorContent (cj : Option String) : Except String Json :=
  match cj with
  | none => Except.ok emptyDoc
  | some str =>
    if str = "" then Except.ok emptyDoc
    else
      match parseJson str with
      | some j => Except.ok j
      | none => Except.error ("SyntaxError: JSON.parse")

/-- A freshly mounted component before its first effect run: no React state
set, no timers, editor holding the resolved initial content. -/
def freshSession (id : Nat) (cj : Option String) (d : Json) : Session :=
  { noteId := id
    contentJson := cj
    isSaving := false
    lastSaved := none
    hasUnsavedChanges := false
    saveTimeoutRef := none
    isLoadingNote := false
    editorDoc := d
    pendingSaveTimers := []
    pendingGuardClears := []
    nextTimerId := 0 }

/-- The repository that always succeeds. -/
def okAll : RepoOk := fun _ _ => true

/-- The repository that always fails. -/
def okNone : RepoOk := fun _ _ => false

/-! ## Concrete scenario data -/

/-- Serialized content of note A: the canonical empty TipTap document. -/
def cA : String := stringify emptyDoc

/-- Serialized content of note B, different from note A's. -/
def cB : String := "\x7b\"type\":\"doc\",\"content\":[\x7b\"type\":\"text\"\x7d]\x7d"

/-- The document produced by a user edit while note A is active. -/
def dEdit : Json :=
  Json.obj [("type", Json.str ("doc")), ("content", Json.arr [Json.str ("A-edit")])]

/-- A freshly mounted editor on note 1 whose prop carries note A's content. -/
def sessionA : Session := freshSession 1 (some cA) emptyDoc

/-- Mount on note 1, user edit at 150 ms, switch to note 2 at 200 ms while
the 2000 ms debounce timer scheduled at 150 ms is still pending. -/
def scenSwitchWhilePending : List Ev :=
  [Ev.switch 0 1 (some cA), Ev.edit 150 dEdit, Ev.switch 200 2 (some cB)]

/-- Mount on note 1, user edit at 150 ms, unmount at 200 ms while the
debounce timer is still pending. -/
def scenUnmountWhilePending : List Ev :=
  [Ev.switch 0 1 (some cA), Ev.edit 150 dEdit, Ev.unmount 200]

/-- Mount on note 1, user edit at 150 ms, manual save at 300 ms while the
debounce timer scheduled for 2150 ms is still pending. -/
def scenManualWhilePending : List Ev :=
  [Ev.switch 0 1 (some cA), Ev.edit 150 dEdit, Ev.manual 300]

/-- Mount on note 1 with the spec's document and no user input at all. -/
def scenLoadOnly : List Ev :=
  [Ev.switch 0 1 (some ("\x7b\"type\":\"doc\"\x7d"))]

/-- Mount on note 1, a genuine user edit at 50 ms — inside the 100 ms guard
window — and a manual save attempt at 200 ms, after the guard cleared. -/
def scenEditInGuardWindow : List Ev :=
  [Ev.switch 0 1 (some cA), Ev.edit 50 dEdit, Ev.manual 200]

/-- A dirty session on note 1: an auto-save timer scheduled for 2150 ms is
pending and `hasUnsavedChanges` is set. -/
def sessionDirty : Session :=
  { sessionA with
    pendingSaveTimers := [⟨0, 2150, 1, cA⟩]
    saveTimeoutRef := some 0
    nextTimerId := 1
    hasUnsavedChanges := true }

/-- A note list cache with two entries, used to instantiate the cache
theorems. -/
def cacheW : NoteList :=
  { notes := [⟨1, 1, "one", "\x7b\x7d"⟩, ⟨2, 1, "two", "\x7b\x7d"⟩], total := 2 }

/-! ## Auxiliary predicates and helper functions for the debounce theorems -/

/-- Turn timed contents into edit events. -/
def editEvents (edits : List (Nat × Json)) : List Ev :=
  edits.map (fun p => Ev.edit p.1 p.2)

/-- Each listed time is at or after the previous one and strictly inside the
previous 2000 ms debounce window (the burst never lets a window elapse). -/
def chainedWithin : Nat → List (Nat × Json) → Prop
  | _, [] => True
  | t, (u, _) :: rest => (t ≤ u ∧ u < t + 2000) ∧ chainedWithin u rest

/-- The time of the last edit of the burst (or the given default). -/
def lastTime (t : Nat) (edits : List (Nat × Json)) : Nat :=
  edits.foldl (fun _ p => p.1) t

/-- The serialization of the last edited document of the burst (or the given
default). -/
def lastContent (c : String) (edits : List (Nat × Json)) : String :=
  edits.foldl (fun _ p => stringify p.2) c

/-- The single-timer discipline: either no scheduled save callback is alive,
or exactly one is and `saveTimeoutRef` holds its handle (so the next
`clearTimeout` really cancels it). -/
def TimerInv (s : Session) : Prop :=
  s.pendingSaveTimers = [] ∨
    ∃ tm, s.pendingSaveTimers = [tm] ∧ s.saveTimeoutRef = some tm.id

end Polymathic

namespace Polymathic

/-! ## Theorems -/

/-- Claim C4: for every cache state and every optimistic mutation
`mutate(noteId, partial)`, if the repository call then fails, the cache is
rolled back exactly to the snapshot taken before the mutation — the round
trip snapshot / mutate / fail / restore equals the snapshot. -/
theorem C4_rollback_restores_snapshot
    (cache : Option NoteList) (id : Nat) (data : NoteUpdate) :
    mutateThenFail cache id data = snapshotCache cache := by
  cases cache <;> rfl

/-- Claim C9: the optimistic rewrite is a frame: entries whose id differs
from the mutated one keep their value and their position, the list length and
the metadata are unchanged, an empty cache stays empty, and when no entry
matches the whole cache is left exactly as it was. -/
theorem C9_mutate_is_frame (id : Nat) (data : NoteUpdate) :
    setQueryDataUpdate id data none = none
    ∧ (∀ l : NoteList, ∃ ns,
        setQueryDataUpdate id data (some l) = some ⟨ns, l.total, l.subject_id⟩
        ∧ ns.length = l.notes.length
        ∧ ∀ i (h : i < l.notes.length) (h2 : i < ns.length),
            (l.notes[i]).id ≠ id → ns[i] = l.notes[i])
    ∧ (∀ l : NoteList, (∀ n ∈ l.notes, n.id ≠ id) →
        setQueryDataUpdate id data (some l) = some l) := by
  refine ⟨rfl, ?_, ?_⟩
  · intro l
    refine ⟨l.notes.map (fun note => if note.id = id then spreadUpdate note data else note),
      ?_, by simp, ?_⟩
    · rfl
    · intro i h h2 hne
      simp [List.getElem_map, hne]
  · intro l hall
    have hmap : l.notes.map (fun note => if note.id = id then spreadUpdate note data else note)
        = l.notes := by
      conv_rhs => rw [← List.map_id l.notes]
      exact List.map_congr_left (fun n hn => by simp [hall n hn])
    cases l with
    | mk notes total subject_id => simp_all [setQueryDataUpdate]

/-- Witness for C9: on a concrete two-entry cache, a mutation targeting the
absent id 5 leaves the cache exactly as it was, and entry 2 survives a
mutation of entry 1 unchanged. -/
theorem C9_witness :
    setQueryDataUpdate 5 ⟨some ("X"), none⟩ (some cacheW) = some cacheW := by
  exact (C9_mutate_is_frame 5 ⟨some ("X"), none⟩).2.2 cacheW (by decide)

/-- Claim C7: for every prior session state, running the note-switch effect
resets the save session to a fresh idle state — immediately afterwards
`hasUnsavedChanges` is false and `lastSaved` is absent, regardless of the
previous note's dirty, saving or idle state. -/
theorem C7_switch_resets_session
    (now id : Nat) (cj : Option String) (s : Session) :
    (noteSwitchEffect now id cj s).hasUnsavedChanges = false
    ∧ (noteSwitchEffect now id cj s).lastSaved = none := by
  unfold noteSwitchEffect
  cases cj with
  | none => exact ⟨rfl, rfl⟩
  | some str =>
    by_cases h1 : str = ""
    · simp [h1]
    · by_cases h2 : stringify s.editorDoc = str
      · simp [h1, h2]
      · cases hp : parseJson str <;> simp [h1, h2, hp]

/-- Counterexample to claim C5: the editor's initial-content path
(`content: note.content_json ? JSON.parse(note.content_json) : ""`) has no
try/catch, so on the unparsable document value `"\x7b"` it propagates the
`JSON.parse` exception instead of producing an empty document. -/
theorem C5_counterexample :
    initialEditorContent (some ("\x7b")) = Except.error ("SyntaxError: JSON.parse") := by
  rfl

/-- Claim C5 as amended: on the note-switch load path, a non-empty
unparsable serialized document that differs from the current editor
serialization is replaced by the empty document without raising (the handler
is total); on the initial editor creation path, a non-empty unparsable
document value instead propagates the `JSON.parse` exception — only an
absent or empty value falls back to the empty document there. -/
theorem C5_parse_fallback :
    (∀ (now id : Nat) (s : Session) (str : String),
        str ≠ "" → parseJson str = none → stringify s.editorDoc ≠ str →
        (noteSwitchEffect now id (some str) s).editorDoc = emptyDoc)
    ∧ (∀ str : String, str ≠ "" → parseJson str = none →
        initialEditorContent (some str) = Except.error ("SyntaxError: JSON.parse"))
    ∧ initialEditorContent none = Except.ok emptyDoc
    ∧ initialEditorContent (some ("")) = Except.ok emptyDoc := by
  refine ⟨?_, ?_, rfl, rfl⟩
  · intro now id s str h1 hp h2
    simp [noteSwitchEffect, h1, h2, hp]
  · intro str h1 hp
    simp [initialEditorContent, h1, hp]

/-- Witness for C5: the hypotheses of the amended claim are satisfiable on
the unparsable value `"\x7b"` from a freshly mounted session. -/
theorem C5_witness :
    (noteSwitchEffect 0 1 (some ("\x7b")) (freshSession 1 none emptyDoc)).editorDoc = emptyDoc
    ∧ initialEditorContent (some ("\x7b")) = Except.error ("SyntaxError: JSON.parse") :=
  ⟨C5_parse_fallback.1 0 1 (freshSession 1 none emptyDoc) "\x7b" (by decide) rfl (by decide),
   C5_parse_fallback.2.1 ("\x7b") (by decide) rfl⟩

/-- Claim C6: while the `isLoadingNote` guard is set, a content-change
notification leaves everything but the in-memory document unchanged — in
particular it schedules no save — and loading a note with document
`'\x7b"type":"doc"\x7d'` followed by no user input within the guard window
produces zero persistence calls. -/
theorem C6_guard_blocks_scheduler :
    (∀ (now : Nat) (d : Json) (s : Session), s.isLoadingNote = true →
        onEditorUpdate now d s = { s with editorDoc := d })
    ∧ (runEvents okAll sessionA scenLoadOnly 5000).2 = [] := by
  constructor
  · intro now d s h
    simp [onEditorUpdate, h]
  · rfl

/-- Witness for C6: a guarded session discards a concrete notification,
changing only the document. -/
theorem C6_witness :
    onEditorUpdate 0 dEdit { sessionA with isLoadingNote := true }
      = { sessionA with isLoadingNote := true, editorDoc := dEdit } :=
  C6_guard_blocks_scheduler.1 0 dEdit { sessionA with isLoadingNote := true } rfl

/-- Claim C10: every content-change notification that arrives while the
`isLoadingNote` guard is set — including a genuine user edit typed inside the
100 ms window after a note switch — is discarded entirely: it does not set
`hasUnsavedChanges`, schedules no save timer, and without a later
notification or save event after the guard window nothing is persisted; in
the concrete scenario the in-guard edit followed by a manual save attempt
yields zero persistence calls and a clean session. -/
theorem C10_guard_discards_user_edit :
    (∀ (now : Nat) (d : Json) (s : Session), s.isLoadingNote = true →
        (onEditorUpdate now d s).hasUnsavedChanges = s.hasUnsavedChanges
        ∧ (onEditorUpdate now d s).pendingSaveTimers = s.pendingSaveTimers
        ∧ (onEditorUpdate now d s).editorDoc = d)
    ∧ (runEvents okAll sessionA scenEditInGuardWindow 5000).2 = []
    ∧ (runEvents okAll sessionA scenEditInGuardWindow 5000).1.hasUnsavedChanges = false
    ∧ (runEvents okAll sessionA scenEditInGuardWindow 5000).1.pendingSaveTimers = [] := by
  refine ⟨?_, rfl, rfl, rfl⟩
  intro now d s h
  simp [onEditorUpdate, h]

/-- Witness for C10: a concrete guarded session discards a concrete edit. -/
theorem C10_witness :
    (onEditorUpdate 50 dEdit { sessionA with isLoadingNote := true }).hasUnsavedChanges
      = ({ sessionA with isLoadingNote := true } : Session).hasUnsavedChanges :=
  (C10_guard_discards_user_edit.1 50 dEdit { sessionA with isLoadingNote := true } rfl).1

/-- Firing due guard clears is the identity when none are scheduled. -/
theorem fireGuards_empty (now : Nat) (s : Session)
    (h : s.pendingGuardClears = []) : fireGuards now s = s := by
  cases s
  simp_all [fireGuards]

/-- Firing due save callbacks is the identity when every scheduled one is
still in the future. -/
theorem fireSaves_future (ok : RepoOk) (now : Nat) (s : Session) (calls : List Call)
    (h : ∀ tm ∈ s.pendingSaveTimers, now < tm.deadline) :
    fireSaves ok now (s, calls) = (s, calls) := by
  have h1 : s.pendingSaveTimers.filter (fun tm => tm.deadline ≤ now) = [] := by
    rw [List.filter_eq_nil_iff]
    intro tm hm
    simpa using Nat.not_le.mpr (h tm hm)
  have h2 : s.pendingSaveTimers.filter (fun tm => now < tm.deadline) = s.pendingSaveTimers := by
    rw [List.filter_eq_self]
    intro tm hm
    simpa using h tm hm
  simp only [fireSaves, h1, h2, List.foldl_nil]

/-- Firing due save callbacks when exactly one is scheduled and due runs its
body once, on the state with an emptied timer queue. -/
theorem fireSaves_one (ok : RepoOk) (now : Nat) (s : Session) (calls : List Call)
    (tm : SaveTimer) (hpend : s.pendingSaveTimers = [tm]) (hdl : tm.deadline ≤ now) :
    fireSaves ok now (s, calls)
      = fireTimerBody ok tm ({ s with pendingSaveTimers := [] }, calls) := by
  simp [fireSaves, hpend, hdl, Nat.not_lt.mpr hdl]

/-- Firing every due timer is the identity when no guard clear is scheduled
and every save callback is in the future. -/
theorem fireDue_id (ok : RepoOk) (now : Nat) (s : Session) (calls : List Call)
    (hg : s.pendingGuardClears = [])
    (hs : ∀ tm ∈ s.pendingSaveTimers, now < tm.deadline) :
    fireDue ok now (s, calls) = (s, calls) := by
  show fireSaves ok now (fireGuards now s, calls) = (s, calls)
  rw [fireGuards_empty now s hg, fireSaves_future ok now s calls hs]

/-- Claim C8: when a persistence call fails, the dirty state and the
in-memory document are preserved and nothing is retried automatically.  For
a fired auto-save timer the resulting state differs from the prior one only
in the emptied timer queue and the cleared `isSaving` flag — in particular
`hasUnsavedChanges`, `editorDoc`, `lastSaved` are untouched and no new timer
is scheduled; a failed `manualSave` likewise only clears `isSaving` while
recording the attempted call, leaving the dirty flag and document in place
for the next debounce or manual retry. -/
theorem C8_failure_preserves_dirty :
    (∀ (ok : RepoOk) (s : Session) (calls : List Call) (tm : SaveTimer) (now : Nat),
        s.pendingSaveTimers = [tm] → tm.deadline ≤ now →
        ok tm.noteId tm.content = false →
        fireSaves ok now (s, calls)
          = ({ s with pendingSaveTimers := [], isSaving := false },
             calls ++ [⟨tm.noteId, tm.content⟩]))
    ∧ (∀ (ok : RepoOk) (now : Nat) (s : Session) (calls : List Call),
        s.hasUnsavedChanges = true →
        ok s.noteId (stringify s.editorDoc) = false →
        manualSave ok now (s, calls)
          = ({ s with isSaving := false },
             calls ++ [⟨s.noteId, stringify s.editorDoc⟩])) := by
  constructor
  · intro ok s calls tm now hpend hdl hok
    rw [fireSaves_one ok now s calls tm hpend hdl]
    simp [fireTimerBody, hok]
  · intro ok now s calls hdirty hok
    simp [manualSave, hdirty, hok]

/-- Witness for C8: both failure paths instantiated on the dirty session
with the always-failing repository. -/
theorem C8_witness :
    fireSaves okNone 2150 (sessionDirty, [])
      = ({ sessionDirty with pendingSaveTimers := [], isSaving := false }, [⟨1, cA⟩])
    ∧ manualSave okNone 300 (sessionDirty, [])
      = ({ sessionDirty with isSaving := false }, [⟨1, cA⟩]) :=
  ⟨C8_failure_preserves_dirty.1 okNone sessionDirty [] ⟨0, 2150, 1, cA⟩ 2150 rfl (by decide) rfl,
   C8_failure_preserves_dirty.2 okNone 300 sessionDirty [] rfl rfl⟩

/-- Counterexample to claim C3: in the concrete trace mount, edit at 150 ms,
`manualSave` at 300 ms, the manual save issues its call (one call by
300 ms) yet the debounce timer scheduled at 150 ms is still pending
afterwards — `manualSave` did not cancel it — and by 5000 ms it has fired,
for two persistence calls in total, contradicting the claimed
cancellation. -/
theorem C3_counterexample :
    (runEvents okAll sessionA scenManualWhilePending 300).2.length = 1
    ∧ (runEvents okAll sessionA scenManualWhilePending 300).1.pendingSaveTimers.length = 1
    ∧ (runEvents okAll sessionA scenManualWhilePending 5000).2.length = 2 :=
  ⟨rfl, rfl, rfl⟩

/-- Claim C3 as amended: `manualSave` is a no-op when `hasUnsavedChanges` is
false, so two immediate invocations with no new change after the first issue
exactly one persistence call; when `hasUnsavedChanges` is true it performs
the persistence call immediately, but it does NOT cancel a pending debounce
timer — the scheduled callbacks and `saveTimeoutRef` are left untouched, and
a pending debounce fire still happens separately. -/
theorem C3_manualSave_behaviour :
    (∀ (ok : RepoOk) (now : Nat) (s : Session) (calls : List Call),
        s.hasUnsavedChanges = false → manualSave ok now (s, calls) = (s, calls))
    ∧ (∀ (ok : RepoOk) (now : Nat) (s : Session) (calls : List Call),
        s.hasUnsavedChanges = true →
        (manualSave ok now (s, calls)).2 = calls ++ [⟨s.noteId, stringify s.editorDoc⟩]
        ∧ (manualSave ok now (s, calls)).1.pendingSaveTimers = s.pendingSaveTimers
        ∧ (manualSave ok now (s, calls)).1.saveTimeoutRef = s.saveTimeoutRef)
    ∧ (∀ (ok : RepoOk) (now1 now2 : Nat) (s : Session) (calls : List Call),
        s.hasUnsavedChanges = true →
        ok s.noteId (stringify s.editorDoc) = true →
        (manualSave ok now2 (manualSave ok now1 (s, calls))).2
          = calls ++ [⟨s.noteId, stringify s.editorDoc⟩]) := by
  refine ⟨?_, ?_, ?_⟩
  · intro ok now s calls h
    simp [manualSave, h]
  · intro ok now s calls h
    cases hok : ok s.noteId (stringify s.editorDoc) <;> simp [manualSave, h, hok]
  · intro ok now1 now2 s calls h hok
    have h1 : manualSave ok now1 (s, calls)
        = ({ s with lastSaved := some now1, hasUnsavedChanges := false, isSaving := false },
           calls ++ [⟨s.noteId, stringify s.editorDoc⟩]) := by
      simp [manualSave, h, hok]
    rw [h1]
    simp [manualSave]

/-- Witness for C3: two immediate manual saves on the dirty session issue
exactly one persistence call. -/
theorem C3_witness :
    (manualSave okAll 400 (manualSave okAll 300 (sessionDirty, []))).2 = [⟨1, cA⟩] :=
  C3_manualSave_behaviour.2.2 okAll 300 400 sessionDirty [] rfl rfl

/-- Counterexample to claim C1: in the concrete trace mount on note 1, edit
at 150 ms, switch to note 2 at 200 ms, the pending debounce timer is not
cancelled: it fires and issues one persistence call for the previous note's
pending edit (the claim demands zero). -/
theorem C1_counterexample :
    (runEvents okAll sessionA scenSwitchWhilePending 5000).2 = [⟨1, stringify dEdit⟩]
    ∧ (runEvents okAll sessionA scenSwitchWhilePending 5000).2.length ≠ 0 :=
  ⟨rfl, by decide⟩

set_option maxHeartbeats 2000000 in
/-- Claim C1 as amended: switching the active note does not cancel the
pending debounce timer (only the unmount cleanup clears it): for any ids of
the two notes, the timer fires after the switch and issues exactly one
persistence call for the previous note's pending edit, addressed to the
previous note's id — the edit to note A is saved as an edit to note A, never
as an edit to note B — while unmounting with the timer pending yields zero
persistence calls. -/
theorem C1_switch_keeps_timer (a b : Nat) :
    (runEvents okAll (freshSession a (some cA) emptyDoc)
        [Ev.switch 0 a (some cA), Ev.edit 150 dEdit, Ev.switch 200 b (some cB)] 5000).2
      = [⟨a, stringify dEdit⟩]
    ∧ (runEvents okAll (freshSession a (some cA) emptyDoc)
        [Ev.switch 0 a (some cA), Ev.edit 150 dEdit, Ev.unmount 200] 5000).2
      = [] :=
  ⟨rfl, rfl⟩

/-- The body of a fired save callback never touches the timer queue or the
timeout ref of the state it runs on. -/
theorem fireTimerBody_fields (ok : RepoOk) (tm : SaveTimer) (sc : Session × List Call) :
    (fireTimerBody ok tm sc).1.pendingSaveTimers = sc.1.pendingSaveTimers
    ∧ (fireTimerBody ok tm sc).1.saveTimeoutRef = sc.1.saveTimeoutRef := by
  cases hok : ok tm.noteId tm.content <;> simp [fireTimerBody, hok]

/-- The note-switch effect never touches the timer queue or the timeout
ref. -/
theorem noteSwitchEffect_fields (now id : Nat) (cj : Option String) (s : Session) :
    (noteSwitchEffect now id cj s).pendingSaveTimers = s.pendingSaveTimers
    ∧ (noteSwitchEffect now id cj s).saveTimeoutRef = s.saveTimeoutRef := by
  unfold noteSwitchEffect
  cases cj with
  | none => exact ⟨rfl, rfl⟩
  | some str =>
    by_cases h1 : str = ""
    · simp [h1]
    · by_cases h2 : stringify s.editorDoc = str
      · simp [h1, h2]
      · cases hp : parseJson str <;> simp [h1, h2, hp]

/-- A manual save never touches the timer queue or the timeout ref. -/
theorem manualSave_fields (ok : RepoOk) (now : Nat) (sc : Session × List Call) :
    (manualSave ok now sc).1.pendingSaveTimers = sc.1.pendingSaveTimers
    ∧ (manualSave ok now sc).1.saveTimeoutRef = sc.1.saveTimeoutRef := by
  by_cases hd : sc.1.hasUnsavedChanges
  · cases hok : ok sc.1.noteId (stringify sc.1.editorDoc) <;> simp [manualSave, hd, hok]
  · simp [manualSave, hd]

/-- The single-timer discipline only depends on the timer queue and the
timeout ref. -/
theorem timerInv_of_fields {s t : Session}
    (hp : t.pendingSaveTimers = s.pendingSaveTimers)
    (hr : t.saveTimeoutRef = s.saveTimeoutRef) (h : TimerInv s) : TimerInv t := by
  unfold TimerInv at h ⊢
  rw [hp, hr]
  exact h

/-- Firing due guard clears preserves the single-timer discipline. -/
theorem timerInv_fireGuards (now : Nat) (s : Session) (h : TimerInv s) :
    TimerInv (fireGuards now s) :=
  timerInv_of_fields rfl rfl h

/-- Firing due save callbacks preserves the single-timer discipline. -/
theorem timerInv_fireSaves (ok : RepoOk) (now : Nat) (sc : Session × List Call)
    (h : TimerInv sc.1) : TimerInv (fireSaves ok now sc).1 := by
  obtain ⟨s, calls⟩ := sc
  rcases h with h | ⟨tm, h1, h2⟩
  · have h' : s.pendingSaveTimers = [] := h
    left
    simp [fireSaves, h']
  · have h1' : s.pendingSaveTimers = [tm] := h1
    have h2' : s.saveTimeoutRef = some tm.id := h2
    by_cases hd : tm.deadline ≤ now
    · left
      rw [fireSaves_one ok now s calls tm h1' hd]
      rw [(fireTimerBody_fields ok tm _).1]
    · have hf : fireSaves ok now (s, calls) = (s, calls) := by
        apply fireSaves_future
        intro x hx
        rw [h1'] at hx
        simp only [List.mem_singleton] at hx
        subst hx
        exact Nat.lt_of_not_le hd
      rw [hf]
      exact Or.inr ⟨tm, h1', h2'⟩

/-- Scheduling through `autoSave` always leaves exactly one live save
callback, holding the handle just stored in `saveTimeoutRef`, provided the
single-timer discipline held before. -/
theorem timerInv_autoSave (now : Nat) (content : String) (s : Session)
    (h : TimerInv s) :
    (autoSave now content s).pendingSaveTimers
      = [⟨s.nextTimerId, now + 2000, s.noteId, content⟩]
    ∧ (autoSave now content s).saveTimeoutRef = some s.nextTimerId := by
  rcases h with h | ⟨tm, h1, h2⟩
  · cases href : s.saveTimeoutRef <;> simp [autoSave, clearSaveTimeout, href, h]
  · simp [autoSave, clearSaveTimeout, h1, h2]

/-- Every event handler preserves the single-timer discipline. -/
theorem timerInv_applyEv (ok : RepoOk) (e : Ev) (sc : Session × List Call)
    (h : TimerInv sc.1) : TimerInv (applyEv ok e sc).1 := by
  obtain ⟨s, calls⟩ := sc
  cases e with
  | edit t d =>
    by_cases hl : s.isLoadingNote
    · exact timerInv_of_fields (t := (applyEv ok (Ev.edit t d) (s, calls)).1)
        (by simp [applyEv, onEditorUpdate, hl]) (by simp [applyEv, onEditorUpdate, hl]) h
    · have h' : TimerInv { s with editorDoc := d } := timerInv_of_fields rfl rfl h
      have := timerInv_autoSave t (stringify d) { s with editorDoc := d } h'
      right
      refine ⟨⟨({ s with editorDoc := d } : Session).nextTimerId, t + 2000,
        ({ s with editorDoc := d } : Session).noteId, stringify d⟩, ?_, ?_⟩
      · simpa [applyEv, onEditorUpdate, hl] using this.1
      · simpa [applyEv, onEditorUpdate, hl] using this.2
  | switch t id cj =>
    exact timerInv_of_fields (t := (applyEv ok (Ev.switch t id cj) (s, calls)).1)
      (noteSwitchEffect_fields t id cj s).1 (noteSwitchEffect_fields t id cj s).2 h
  | manual t =>
    exact timerInv_of_fields (t := (applyEv ok (Ev.manual t) (s, calls)).1)
      (manualSave_fields ok t (s, calls)).1 (manualSave_fields ok t (s, calls)).2 h
  | unmount t =>
    left
    rcases h with h | ⟨tm, h1, h2⟩
    · have h' : s.pendingSaveTimers = [] := h
      cases href : s.saveTimeoutRef <;>
        simp [applyEv, unmountCleanup, clearSaveTimeout, href, h']
    · have h1' : s.pendingSaveTimers = [tm] := h1
      have h2' : s.saveTimeoutRef = some tm.id := h2
      simp [applyEv, unmountCleanup, clearSaveTimeout, h1', h2']

/-- Processing any event preserves the single-timer discipline. -/
theorem timerInv_procEvent (ok : RepoOk) (sc : Session × List Call) (e : Ev)
    (h : TimerInv sc.1) : TimerInv (procEvent ok sc e).1 :=
  timerInv_applyEv ok e _ (timerInv_fireSaves ok e.time _ (timerInv_fireGuards e.time sc.1 h))

/-- Running the debounced scheduler over a burst of edits that all fall
inside the running 2000 ms window replaces the single pending callback at
each step without firing it: the fold ends with exactly one pending callback
carrying the last edit's serialization and a deadline 2000 ms past the last
edit, no call having been issued. -/
theorem runEdits_aux (ok : RepoOk) (rest : List (Nat × Json)) :
    ∀ (s : Session) (calls : List Call) (hid tprev : Nat) (c : String),
    s.pendingGuardClears = [] → s.isLoadingNote = false →
    s.pendingSaveTimers = [⟨hid, tprev + 2000, s.noteId, c⟩] →
    s.saveTimeoutRef = some hid →
    chainedWithin tprev rest →
    ∃ (s2 : Session) (hid2 : Nat),
      (editEvents rest).foldl (procEvent ok) (s, calls) = (s2, calls)
      ∧ s2.pendingGuardClears = []
      ∧ s2.isLoadingNote = false
      ∧ s2.noteId = s.noteId
      ∧ s2.pendingSaveTimers
          = [⟨hid2, lastTime tprev rest + 2000, s.noteId, lastContent c rest⟩]
      ∧ s2.saveTimeoutRef = some hid2 := by
  induction rest with
  | nil =>
    intro s calls hid tprev c hg hload hpend href _
    exact ⟨s, hid, rfl, hg, hload, rfl, hpend, href⟩
  | cons p rest ih =>
    obtain ⟨u, d⟩ := p
    intro s calls hid tprev c hg hload hpend href hchain
    obtain ⟨⟨hle, hlt⟩, hchain'⟩ := hchain
    have hfire : fireDue ok u (s, calls) = (s, calls) := by
      apply fireDue_id ok u s calls hg
      intro tm htm
      rw [hpend] at htm
      simp only [List.mem_singleton] at htm
      subst htm
      exact hlt
    have hstep : procEvent ok (s, calls) (Ev.edit u d)
        = ({ s with
              editorDoc := d
              hasUnsavedChanges := true
              pendingSaveTimers := [⟨s.nextTimerId, u + 2000, s.noteId, stringify d⟩]
              saveTimeoutRef := some s.nextTimerId
              nextTimerId := s.nextTimerId + 1 }, calls) := by
      show applyEv ok (Ev.edit u d) (fireDue ok u (s, calls)) = _
      rw [hfire]
      show (onEditorUpdate u d s, calls) = _
      simp [onEditorUpdate, hload, autoSave, clearSaveTimeout, href, hpend]
    have hfold : (editEvents ((u, d) :: rest)).foldl (procEvent ok) (s, calls)
        = (editEvents rest).foldl (procEvent ok) (procEvent ok (s, calls) (Ev.edit u d)) := rfl
    rw [hfold, hstep]
    obtain ⟨s2, hid2, heq, hg2, hload2, hnid2, hpend2, href2⟩ :=
      ih ({ s with
              editorDoc := d
              hasUnsavedChanges := true
              pendingSaveTimers := [⟨s.nextTimerId, u + 2000, s.noteId, stringify d⟩]
              saveTimeoutRef := some s.nextTimerId
              nextTimerId := s.nextTimerId + 1 }) calls s.nextTimerId u (stringify d)
        hg hload rfl rfl hchain'
    exact ⟨s2, hid2, heq, hg2, hload2, hnid2, hpend2, href2⟩

/-- Claim C2: for every burst of content-change notifications each arriving
inside the running 2000 ms debounce window, exactly one persistence call is
issued — at the moment the window elapses, carrying the serialization of the
last notification's content, not the first's — and the single-timer
discipline holds throughout: each new notification first cancels the previous
timer, so processing any event preserves the invariant that at most one save
callback is outstanding. -/
theorem C2_debounce_single_save :
    (∀ (ok : RepoOk) (s : Session) (t0 : Nat) (d0 : Json)
        (rest : List (Nat × Json)) (horizon : Nat),
        s.pendingSaveTimers = [] → s.pendingGuardClears = [] →
        s.isLoadingNote = false →
        chainedWithin t0 rest →
        lastTime t0 rest + 2000 ≤ horizon →
        (runEvents ok s (editEvents ((t0, d0) :: rest)) horizon).2
          = [⟨s.noteId, lastContent (stringify d0) rest⟩])
    ∧ (∀ (ok : RepoOk) (sc : Session × List Call) (e : Ev),
        TimerInv sc.1 →
        TimerInv (procEvent ok sc e).1
        ∧ (procEvent ok sc e).1.pendingSaveTimers.length ≤ 1) := by
  constructor
  · intro ok s t0 d0 rest horizon hpend hg hload hchain hhor
    have hfire0 : fireDue ok t0 (s, ([] : List Call)) = (s, []) := by
      apply fireDue_id ok t0 s [] hg
      intro tm htm
      rw [hpend] at htm
      cases htm
    have hstep0 : procEvent ok (s, ([] : List Call)) (Ev.edit t0 d0)
        = ({ s with
              editorDoc := d0
              hasUnsavedChanges := true
              pendingSaveTimers := [⟨s.nextTimerId, t0 + 2000, s.noteId, stringify d0⟩]
              saveTimeoutRef := some s.nextTimerId
              nextTimerId := s.nextTimerId + 1 }, []) := by
      show applyEv ok (Ev.edit t0 d0) (fireDue ok t0 (s, [])) = _
      rw [hfire0]
      show (onEditorUpdate t0 d0 s, ([] : List Call)) = _
      cases href : s.saveTimeoutRef <;>
        simp [onEditorUpdate, hload, autoSave, clearSaveTimeout, href, hpend]
    have hrun : runEvents ok s (editEvents ((t0, d0) :: rest)) horizon
        = fireDue ok horizon
            ((editEvents rest).foldl (procEvent ok) (procEvent ok (s, []) (Ev.edit t0 d0))) := rfl
    rw [hrun, hstep0]
    obtain ⟨s2, hid2, heq, hg2, hload2, hnid2, hpend2, href2⟩ :=
      runEdits_aux ok rest
        ({ s with
              editorDoc := d0
              hasUnsavedChanges := true
              pendingSaveTimers := [⟨s.nextTimerId, t0 + 2000, s.noteId, stringify d0⟩]
              saveTimeoutRef := some s.nextTimerId
              nextTimerId := s.nextTimerId + 1 }) [] s.nextTimerId t0 (stringify d0)
        hg hload rfl rfl hchain
    rw [heq]
    show (fireSaves ok horizon (fireGuards horizon s2, [])).2 = _
    rw [fireGuards_empty horizon s2 hg2]
    rw [fireSaves_one ok horizon s2 []
      ⟨hid2, lastTime t0 rest + 2000, s.noteId, lastContent (stringify d0) rest⟩ hpend2 hhor]
    cases hok : ok s.noteId (lastContent (stringify d0) rest) <;>
      simp [fireTimerBody, hok]
  · intro ok sc e hinv
    have hpres : TimerInv (procEvent ok sc e).1 := timerInv_procEvent ok sc e hinv
    refine ⟨hpres, ?_⟩
    rcases hpres with h | ⟨tm, h, _⟩ <;> simp [h]

/-- Witness for C2: a concrete clean session and a two-edit burst 100 ms
apart produce exactly the one call carrying the second edit's content, and a
concrete event preserves the single-timer discipline. -/
theorem C2_witness :
    (runEvents okAll (freshSession 1 none emptyDoc)
        (editEvents [(0, Json.str ("v1")), (100, dEdit)]) 2100).2
      = [⟨1, stringify dEdit⟩]
    ∧ TimerInv (procEvent okAll (freshSession 1 none emptyDoc, []) (Ev.edit 0 dEdit)).1 :=
  ⟨C2_debounce_single_save.1 okAll (freshSession 1 none emptyDoc) 0 (Json.str ("v1"))
      [(100, dEdit)] 2100 rfl rfl rfl ⟨⟨by decide, by decide⟩, trivial⟩ (by decide),
   (C2_debounce_single_save.2 okAll (freshSession 1 none emptyDoc, [])
      (Ev.edit 0 dEdit) (Or.inl rfl)).1⟩

end Polymathic
